import Mathlib

/-!
Verification of the gz-mujoco bidirectional MJCF ⇄ SDFormat converter core.

The Python sources embedded here:
* mjcf_to_sdformat/converters/geometry.py  (MJCF geom → SDFormat geometry,
  visual/collision wrappers, module-level anonymous-name counters)
* sdformat_mjcf/converters/geometry.py     (SDFormat geometry → MJCF geom)
* mjcf_to_sdformat/converters/world.py     (worldbody walker, fixed-joint
  synthesis, world plugin table)

Modelling conventions:
* numeric attribute values are rationals (Python floats are modelled
  exactly; the doubling/halving arithmetic of the converters is exact);
* Python functions that may `raise` are modelled in `Except ConvError`;
  a Python function that can also `return None` returns an `Option`
  inside the `Except`;
* the square root used by ignition.math.Vector3d.distance is an external
  collaborator (out of scope per the spec), abstracted as a function
  argument `sq`;
* collaborator modules that are out of scope for the core (joint, link,
  light and sensor converters, pose resolution, default modifiers) are
  abstracted as fields of a `Collaborators` record; their payload types
  are uninterpreted records.
-/

namespace GzMujoco

abbrev Q := Rat

/-- ignition.math.Vector3d (only the components; operations modelled below). -/
structure Vector3d where
  x : Q
  y : Q
  z : Q
deriving DecidableEq, Repr

/-- ignition.math.Vector2d. -/
structure Vector2d where
  x : Q
  y : Q
deriving DecidableEq, Repr

def Vector3d.mulScalar (v : Vector3d) (c : Q) : Vector3d :=
  ⟨v.x * c, v.y * c, v.z * c⟩

def Vector3d.divScalar (v : Vector3d) (c : Q) : Vector3d :=
  ⟨v.x / c, v.y / c, v.z / c⟩

def Vector2d.mulScalar (v : Vector2d) (c : Q) : Vector2d :=
  ⟨v.x * c, v.y * c⟩

def Vector2d.divScalar (v : Vector2d) (c : Q) : Vector2d :=
  ⟨v.x / c, v.y / c⟩

/-- ignition.math.Vector3d.distance: the Euclidean distance between two
points.  The square root is computed by the external math library; it is
abstracted as the function argument `sq` applied to the sum of squared
component differences. -/
def vector3d_distance (sq : Q → Q) (a b : Vector3d) : Q :=
  sq ((a.x - b.x) * (a.x - b.x) + (a.y - b.y) * (a.y - b.y) +
      (a.z - b.z) * (a.z - b.z))

/-- Python exception kinds raised by the embedded code. -/
inductive ConvError where
  | runtimeError (msg : String)
  | attributeError (msg : String)
  | indexError (msg : String)
deriving DecidableEq, Repr

/-- Python list indexing `l[i]`: raises IndexError when out of range. -/
def pyIndex (l : List Q) (i : Nat) : Except ConvError Q :=
  match l.get? i with
  | some v => .ok v
  | none => .error (.indexError "list index out of range")

/-- Python `str` applied to an optional string attribute
(`str(None) = "None"`), used in the f-string of the unsupported-type error. -/
def pyStrOptString : Option String → String
  | some s => s
  | none => "None"

/-- Decimal digit character, as produced by Python `str` on an integer. -/
def digitChar (d : Nat) : Char :=
  match d with
  | 0 => '0' | 1 => '1' | 2 => '2' | 3 => '3' | 4 => '4'
  | 5 => '5' | 6 => '6' | 7 => '7' | 8 => '8' | 9 => '9'
  | _ => '*'

/-- Fuel-driven decimal digit list (most significant first). -/
def pyStrNatAux : Nat → Nat → List Char
  | 0, n => [digitChar n]
  | fuel + 1, n =>
    if n < 10 then [digitChar n]
    else pyStrNatAux fuel (n / 10) ++ [digitChar (n % 10)]

/-- Python `str` on a non-negative integer: its decimal representation. -/
def pyStrNat (n : Nat) : String :=
  ⟨pyStrNatAux n n⟩

/- ================= SDFormat geometry data model ================= -/

structure SdfBox where
  size : Vector3d
deriving DecidableEq, Repr

structure SdfCapsule where
  radius : Q
  length : Q
deriving DecidableEq, Repr

structure SdfCylinder where
  radius : Q
  length : Q
deriving DecidableEq, Repr

structure SdfEllipsoid where
  radii : Vector3d
deriving DecidableEq, Repr

structure SdfSphere where
  radius : Q
deriving DecidableEq, Repr

structure SdfPlane where
  size : Vector2d
deriving DecidableEq, Repr

/-- sdf.Mesh; its content is never inspected by the converter core. -/
structure SdfMesh where
  uri : String
deriving DecidableEq, Repr

inductive GeometryType where
  | empty | box | capsule | cylinder | ellipsoid | sphere | plane | mesh
deriving DecidableEq, Repr

/-- Python `str` of the sdf.GeometryType enum value (used only inside the
unsupported-shape error message). -/
def GeometryType.pyStr : GeometryType → String
  | .empty => "GeometryType.EMPTY"
  | .box => "GeometryType.BOX"
  | .capsule => "GeometryType.CAPSULE"
  | .cylinder => "GeometryType.CYLINDER"
  | .ellipsoid => "GeometryType.ELLIPSOID"
  | .sphere => "GeometryType.SPHERE"
  | .plane => "GeometryType.PLANE"
  | .mesh => "GeometryType.MESH"

/-- sdf.Geometry: a type tag plus one optional shape object per kind
(`sdf.Geometry()` starts with no shape set). -/
structure SdfGeometry where
  type : GeometryType := .empty
  box : Option SdfBox := none
  capsule : Option SdfCapsule := none
  cylinder : Option SdfCylinder := none
  ellipsoid : Option SdfEllipsoid := none
  sphere : Option SdfSphere := none
  plane : Option SdfPlane := none
  mesh : Option SdfMesh := none
deriving DecidableEq, Repr

/- ================= MJCF geom data model ================= -/

/-- A dm_control MJCF geom element.  Unset XML attributes are `none`;
`size` and `fromto` are raw numeric attribute lists. -/
structure MjcfGeom where
  name : Option String := none
  type : Option String := none
  size : List Q := []
  fromto : Option (List Q) := none
  pos : Option (List Q) := none
  euler : Option (List Q) := none
  group : Option Nat := none
deriving DecidableEq, Repr

/-- Modelled from the spec: sdformat_mjcf_utils.sdf_utils.list_to_vec3d is
not under src/; per the spec's data model (ShapeParameterSource exposes a
raw numeric parameter list, 3-component sizes), the adapter reads the
first three components of the list. -/
def list_to_vec3d (l : List Q) : Except ConvError Vector3d := do
  let x ← pyIndex l 0
  let y ← pyIndex l 1
  let z ← pyIndex l 2
  return ⟨x, y, z⟩

def vec3d_to_list (v : Vector3d) : List Q := [v.x, v.y, v.z]

def vec2d_to_list (v : Vector2d) : List Q := [v.x, v.y]

/- ================= MJCF → SDFormat geometry conversion =================
   mjcf_to_sdformat/converters/geometry.py -/

/-- Module-level initial value of the VISUAL_NUMBER global counter
(geometry.py line 22). -/
def VISUAL_NUMBER : Nat := 0

/-- Module-level initial value of the COLLISION_NUMBER global counter
(geometry.py line 23). -/
def COLLISION_NUMBER : Nat := 0

/-- mjcf_geom_to_sdf (geometry.py lines 26-88).  Returns `.ok (some g)` on
success, `.error` where the Python raises; `.ok none` would correspond to
the Python function returning None. -/
def mjcf_geom_to_sdf (sq : Q → Q) (geom : MjcfGeom) :
    Except ConvError (Option SdfGeometry) :=
  if geom.type = some "box" then do
    let v ← list_to_vec3d geom.size
    return some { type := .box, box := some ⟨v.mulScalar 2⟩ }
  else if geom.type = some "capsule" then do
    let r ← pyIndex geom.size 0
    match geom.fromto with
    | none => do
      let h ← pyIndex geom.size 1
      return some { type := .capsule, capsule := some ⟨r, h * 2⟩ }
    | some ft => do
      let x1 ← pyIndex ft 0
      let y1 ← pyIndex ft 1
      let z1 ← pyIndex ft 2
      let x2 ← pyIndex ft 3
      let y2 ← pyIndex ft 4
      let z2 ← pyIndex ft 5
      let len := vector3d_distance sq ⟨x1, y1, z1⟩ ⟨x2, y2, z2⟩
      return some { type := .capsule, capsule := some ⟨r, len⟩ }
  else if geom.type = some "cylinder" then do
    let r ← pyIndex geom.size 0
    match geom.fromto with
    | none => do
      let h ← pyIndex geom.size 1
      return some { type := .cylinder, cylinder := some ⟨r, h * 2⟩ }
    | some ft => do
      let x1 ← pyIndex ft 0
      let y1 ← pyIndex ft 1
      let z1 ← pyIndex ft 2
      let x2 ← pyIndex ft 3
      let y2 ← pyIndex ft 4
      let z2 ← pyIndex ft 5
      let len := vector3d_distance sq ⟨x1, y1, z1⟩ ⟨x2, y2, z2⟩
      return some { type := .cylinder, cylinder := some ⟨r, len⟩ }
  else if geom.type = some "ellipsoid" then do
    let v ← list_to_vec3d geom.size
    return some { type := .ellipsoid, ellipsoid := some ⟨v⟩ }
  else if geom.type = some "sphere" then do
    let r ← pyIndex geom.size 0
    return some { type := .sphere, sphere := some ⟨r⟩ }
  else if geom.type = some "plane" then do
    let sx ← pyIndex geom.size 0
    let sy ← pyIndex geom.size 1
    return some { type := .plane, plane := some ⟨⟨sx * 2, sy * 2⟩⟩ }
  else
    .error (.runtimeError
      ("Encountered unsupported shape type " ++ pyStrOptString geom.type))

/-- sdf.Visual as produced by mjcf_visual_to_sdf: a name and an optional
geometry. -/
structure SdfVisual where
  name : String := ""
  geometry : Option SdfGeometry := none
deriving DecidableEq, Repr

/-- sdf.Collision: a name, a semantic pose handle and an optional
geometry.  The semantic-pose payload is consumed only by the external
pose resolver. -/
structure SemanticPose where
  payload : Nat := 0
deriving DecidableEq, Repr

structure SdfCollision where
  name : String := ""
  sem_pose : SemanticPose := {}
  geometry : Option SdfGeometry := none
deriving DecidableEq, Repr

/-- mjcf_visual_to_sdf (geometry.py lines 91-112).  The global
VISUAL_NUMBER counter is threaded explicitly: the function takes the
counter's value before the call and returns its value after the call
(the Python increments the global before the geometry conversion, so the
increment survives even when the conversion raises). -/
def mjcf_visual_to_sdf (sq : Q → Q) (geom : MjcfGeom) (visual_number : Nat) :
    Nat × Except ConvError (Option SdfVisual) :=
  let (vname, visual_number') :=
    match geom.name with
    | some n => ("visual_" ++ n, visual_number)
    | none => ("unnamed_visual_" ++ pyStrNat visual_number, visual_number + 1)
  match mjcf_geom_to_sdf sq geom with
  | .error e => (visual_number', .error e)
  | .ok none => (visual_number', .ok none)
  | .ok (some g) => (visual_number', .ok (some { name := vname, geometry := some g }))

/-- mjcf_collision_to_sdf (geometry.py lines 115-136), with the global
COLLISION_NUMBER counter threaded explicitly exactly as for
mjcf_visual_to_sdf. -/
def mjcf_collision_to_sdf (sq : Q → Q) (geom : MjcfGeom) (collision_number : Nat) :
    Nat × Except ConvError (Option SdfCollision) :=
  let (cname, collision_number') :=
    match geom.name with
    | some n => ("collision_" ++ n, collision_number)
    | none => ("unnamed_collision_" ++ pyStrNat collision_number, collision_number + 1)
  match mjcf_geom_to_sdf sq geom with
  | .error e => (collision_number', .error e)
  | .ok none => (collision_number', .ok none)
  | .ok (some g) => (collision_number', .ok (some { name := cname, geometry := some g }))

/- ================= SDFormat → MJCF geometry conversion =================
   sdformat_mjcf/src/sdformat_mjcf/converters/geometry.py -/

/-- A quaternion as stored in an SDFormat pose; consumed only by the
external euler-angle adapter. -/
structure Quat where
  w : Q := 1
  x : Q := 0
  y : Q := 0
  z : Q := 0
deriving DecidableEq, Repr

/-- A resolved sdformat Pose3d: position and rotation. -/
structure Pose3d where
  pos : Vector3d := ⟨0, 0, 0⟩
  rot : Quat := {}
deriving DecidableEq, Repr

/-- geometry.py line 22. -/
def COLLISION_GEOM_GROUP : Nat := 3

/-- geometry.py line 23. -/
def VISUAL_GEOM_GROUP : Nat := 0

/-- add_geometry (sdformat_mjcf geometry.py lines 26-80).  The MJCF body
is modelled as its list of geom children; the external adapter
sdformat_mjcf.sdf_utils.quat_to_euler_list is abstracted as `q2e`.  On
success the configured geom is appended to the body and also returned;
when `sdf_geom` is None the function returns None without touching the
body; the mesh and unknown-shape branches raise RuntimeError (in the
Python source the freshly added geom is still attached to the body at
raise time, but the exception aborts the conversion so that state is not
observed). -/
def add_geometry (q2e : Quat → List Q) (body : List MjcfGeom)
    (name : Option String) (pose : Pose3d) (sdf_geom : Option SdfGeometry) :
    Except ConvError (List MjcfGeom × Option MjcfGeom) :=
  match sdf_geom with
  | none => .ok (body, none)
  | some sg =>
    let geom0 : MjcfGeom :=
      { name := name, pos := some (vec3d_to_list pose.pos),
        euler := some (q2e pose.rot) }
    match sg.box with
    | some box_shape =>
      let g : MjcfGeom :=
        { geom0 with
          type := some "box",
          size := vec3d_to_list (box_shape.size.divScalar 2) }
      .ok (body ++ [g], some g)
    | none =>
    match sg.capsule with
    | some capsule_shape =>
      let g : MjcfGeom :=
        { geom0 with
          type := some "capsule",
          size := [capsule_shape.radius, capsule_shape.length / 2] }
      .ok (body ++ [g], some g)
    | none =>
    match sg.cylinder with
    | some cylinder_shape =>
      let g : MjcfGeom :=
        { geom0 with
          type := some "cylinder",
          size := [cylinder_shape.radius, cylinder_shape.length / 2] }
      .ok (body ++ [g], some g)
    | none =>
    match sg.ellipsoid with
    | some ellipsoid_shape =>
      let g : MjcfGeom :=
        { geom0 with
          type := some "ellipsoid",
          size := vec3d_to_list ellipsoid_shape.radii }
      .ok (body ++ [g], some g)
    | none =>
    match sg.plane with
    | some plane_shape =>
      let g : MjcfGeom :=
        { geom0 with
          type := some "plane",
          size := vec2d_to_list (plane_shape.size.divScalar 2) ++ [0] }
      .ok (body ++ [g], some g)
    | none =>
    match sg.sphere with
    | some sphere_shape =>
      let g : MjcfGeom :=
        { geom0 with
          type := some "sphere",
          size := [sphere_shape.radius] }
      .ok (body ++ [g], some g)
    | none =>
    match sg.mesh with
    | some _ => .error (.runtimeError "Meshes are not yet supported")
    | none => .error (.runtimeError
        ("Encountered unsupported shape type " ++ sg.type.pyStr))

/-- add_collision (sdformat_mjcf geometry.py lines 83-88).  The external
pose resolver is abstracted as `pose_resolver`.  The Python sets
`geom.group = COLLISION_GEOM_GROUP` on add_geometry's result without a
None check: when the result is None that attribute assignment raises
AttributeError.  Setting the attribute mutates the geom object already
attached to the body, modelled by rewriting the last-appended element. -/
def add_collision (q2e : Quat → List Q) (pose_resolver : SemanticPose → Pose3d)
    (body : List MjcfGeom) (col : SdfCollision) :
    Except ConvError (List MjcfGeom × MjcfGeom) :=
  let pose := pose_resolver col.sem_pose
  match add_geometry q2e body (some col.name) pose col.geometry with
  | .error e => .error e
  | .ok (_, none) =>
    .error (.attributeError "NoneType object has no attribute group")
  | .ok (body', some g) =>
    let g' : MjcfGeom := { g with group := some COLLISION_GEOM_GROUP }
    .ok (body'.dropLast ++ [g'], g')

/- ================= Worldbody walker =================
   mjcf_to_sdformat/converters/world.py -/

/-- An MJCF joint element; its attributes are consumed only by the
external joint converter mjcf_joint_to_sdf, modelled as an uninterpreted
payload. -/
structure MjcfJoint where
  payload : Nat := 0
deriving DecidableEq, Repr

/-- An MJCF camera element (consumed only by the external sensor
converter). -/
structure MjcfCamera where
  payload : Nat := 0
deriving DecidableEq, Repr

/-- An MJCF light element (consumed only by the external light
converter). -/
structure MjcfLight where
  payload : Nat := 0
deriving DecidableEq, Repr

/-- An MJCF freejoint element marker. -/
structure MjcfFreejoint where
  payload : Nat := 0
deriving DecidableEq, Repr

/-- An MJCF body element: name, declared joints, optional freejoint
marker, cameras, lights and child bodies.  The worldbody is also a body
(its lights are read by mjcf_worldbody_to_sdf). -/
inductive MjcfBody where
  | mk (name : String) (joint : List MjcfJoint) (freejoint : Option MjcfFreejoint)
       (camera : List MjcfCamera) (light : List MjcfLight)
       (body : List MjcfBody) : MjcfBody

def MjcfBody.name : MjcfBody → String
  | .mk n _ _ _ _ _ => n

def MjcfBody.joint : MjcfBody → List MjcfJoint
  | .mk _ j _ _ _ _ => j

def MjcfBody.freejoint : MjcfBody → Option MjcfFreejoint
  | .mk _ _ f _ _ _ => f

def MjcfBody.camera : MjcfBody → List MjcfCamera
  | .mk _ _ _ c _ _ => c

def MjcfBody.light : MjcfBody → List MjcfLight
  | .mk _ _ _ _ l _ => l

def MjcfBody.body : MjcfBody → List MjcfBody
  | .mk _ _ _ _ _ b => b

/-- The mjcf option element: flag.gravity plus the option attributes read
by the walker (attribute arrays modelled as vectors; their contents are
not inspected by the walker). -/
structure MjcfOption where
  flag_gravity : Option String := none
  gravity : Option Vector3d := none
  magnetic : Option Vector3d := none
  wind : Option Vector3d := none
deriving DecidableEq, Repr

/-- The MJCF root element. -/
structure MjcfRoot where
  model : Option String := none
  worldbody : MjcfBody
  option : Option MjcfOption := none

inductive SdfJointType where
  | fixed | revolute | prismatic | ball | free
deriving DecidableEq, Repr

/-- An sdf.Joint as emitted into the model. -/
structure SdfJoint where
  name : String := ""
  kind : SdfJointType := .fixed
  parent : Option String := none
  child : String := ""
deriving DecidableEq, Repr

/-- An sdf sensor object produced by the external camera-sensor
converter. -/
structure SdfSensor where
  payload : Nat := 0
deriving DecidableEq, Repr

/-- An sdf light object produced by the external light converter. -/
structure SdfLight where
  payload : Nat := 0
deriving DecidableEq, Repr

/-- An sdf.Link as produced by the external body converter; the walker
only appends camera sensors to it. -/
structure SdfLink where
  name : String := ""
  sensors : List SdfSensor := []
deriving DecidableEq, Repr

/-- An sdf.Model: name, static flag, links and joints
(`sdf.Model()` starts empty and non-static). -/
structure SdfModel where
  name : String := ""
  static : Bool := false
  links : List SdfLink := []
  joints : List SdfJoint := []
deriving DecidableEq, Repr

/-- sdf.Plugin(filename, name). -/
structure SdfPlugin where
  filename : String := ""
  name : String := ""
deriving DecidableEq, Repr

/-- An sdf.World: the walker appends lights, models and plugins and sets
the option-derived fields. -/
structure SdfWorld where
  lights : List SdfLight := []
  models : List SdfModel := []
  plugins : List SdfPlugin := []
  gravity : Vector3d := ⟨0, 0, -98/10⟩
  magnetic_field : Vector3d := ⟨0, 0, 0⟩
  wind_linear_velocity : Vector3d := ⟨0, 0, 0⟩
deriving DecidableEq, Repr

/-- The external collaborator functions invoked by
mjcf_worldbody_to_sdf.  These modules (joint, link, light, sensor
converters, the defaults modifiers and the unique-name helper) are out of
scope for the core; the Mujoco physics handle is folded into them.  The
walker's theorems hold for every instantiation. -/
structure Collaborators where
  mjcf_body_to_sdf : MjcfBody → Option String → SdfLink
  mjcf_joint_to_sdf : MjcfJoint → Option String → String → Option SdfJoint
  mjcf_camera_sensor_to_sdf : MjcfCamera → Option SdfSensor
  mjcf_light_to_sdf : MjcfLight → SdfLight
  find_unique_name : MjcfBody → String → String → String
  apply_modifiers_joint : MjcfJoint → MjcfJoint
  apply_modifiers_light : MjcfLight → MjcfLight

/-- Modelled from the spec: mjcf_to_sdformat.converters.joint.add_fixed_joint
is not under src/; per the spec the walker synthesizes exactly one Fixed
joint connecting the body to its immediate parent (the name scheme is
immaterial to the claims). -/
def add_fixed_joint (body_parent_name : Option String) (child : String) : SdfJoint :=
  { name := child ++ "_fixed_joint", kind := .fixed,
    parent := body_parent_name, child := child }

/-- The inner loop of iterate_bodies (world.py lines 83-111): camera
sensors are appended to the link, declared joints are converted through
the modifiers and the external joint converter, and a fixed joint is
synthesized when the body declares no joint and has no freejoint. -/
def iterate_bodies (C : Collaborators) :
    List MjcfBody → SdfModel → Option String → SdfModel
  | [], model, _ => model
  | .mk bname bjoint bfreejoint bcamera _blight bchildren :: rest, model,
      body_parent_name =>
    let link := C.mjcf_body_to_sdf (.mk bname bjoint bfreejoint bcamera _blight bchildren)
      body_parent_name
    let link := bcamera.foldl (fun l camera =>
      match C.mjcf_camera_sensor_to_sdf camera with
      | some sensor => { l with sensors := l.sensors ++ [sensor] }
      | none => l) link
    let model := bjoint.foldl (fun m joint =>
      match C.mjcf_joint_to_sdf (C.apply_modifiers_joint joint)
          body_parent_name bname with
      | some joint_sdf => { m with joints := m.joints ++ [joint_sdf] }
      | none => m) model
    let model :=
      if bjoint.length = 0 ∧ bfreejoint = none then
        { model with joints := model.joints ++ [add_fixed_joint body_parent_name bname] }
      else model
    let model := { model with links := model.links ++ [link] }
    iterate_bodies C rest (iterate_bodies C bchildren model (some bname))
      body_parent_name
termination_by bs _ _ => sizeOf bs
decreasing_by all_goals (simp; try omega)

/-- The option handling of mjcf_worldbody_to_sdf (world.py lines
71-81). -/
def apply_option_settings (opt : Option MjcfOption) (world : SdfWorld) : SdfWorld :=
  match opt with
  | none => world
  | some o =>
    let world :=
      if o.flag_gravity = some "disable" then
        { world with gravity := ⟨0, 0, 0⟩ }
      else
        match o.gravity with
        | some gv => { world with gravity := gv }
        | none => world
    let world :=
      match o.magnetic with
      | some mv => { world with magnetic_field := mv }
      | none => world
    match o.wind with
    | some wv => { world with wind_linear_velocity := wv }
    | none => world

/-- The literal world-plugin table (world.py lines 115-124); Python dicts
iterate in insertion order. -/
def world_plugins : List SdfPlugin :=
  [⟨"ignition-gazebo-physics-system", "ignition::gazebo::systems::Physics"⟩,
   ⟨"ignition-gazebo-sensors-system", "ignition::gazebo::systems::Sensors"⟩,
   ⟨"ignition-gazebo-user-commands-system", "ignition::gazebo::systems::UserCommands"⟩,
   ⟨"ignition-gazebo-scene-broadcaster-system", "ignition::gazebo::systems::SceneBroadcaster"⟩]

/-- mjcf_worldbody_to_sdf (world.py lines 29-129). -/
def mjcf_worldbody_to_sdf (C : Collaborators) (mjcf_root : MjcfRoot)
    (world : SdfWorld) (export_world_plugins : Bool) : SdfWorld :=
  let model : SdfModel :=
    { name := match mjcf_root.model with
              | some m => m
              | none => "model" }
  let model_static : SdfModel := {}
  let world := mjcf_root.worldbody.light.foldl (fun w light =>
    { w with lights := w.lights ++ [C.mjcf_light_to_sdf (C.apply_modifiers_light light)] })
    world
  let link := C.mjcf_body_to_sdf mjcf_root.worldbody none
  let model_static :=
    { model_static with
      name := C.find_unique_name mjcf_root.worldbody "geom" "static" }
  let link := mjcf_root.worldbody.camera.foldl (fun l camera =>
    match C.mjcf_camera_sensor_to_sdf camera with
    | some sensor => { l with sensors := l.sensors ++ [sensor] }
    | none => l) link
  let model_static := { model_static with links := model_static.links ++ [link] }
  let model_static := { model_static with static := true }
  let world := { world with models := world.models ++ [model_static] }
  let world := apply_option_settings mjcf_root.option world
  let model := iterate_bodies C mjcf_root.worldbody.body model none
  let world :=
    if export_world_plugins then
      world_plugins.foldl (fun w p => { w with plugins := w.plugins ++ [p] }) world
    else world
  { world with models := world.models ++ [model] }

/- ================= Helper lemmas ================= -/

/-- Value of a decimal digit character (left inverse of digitChar on
digits). -/
def digitVal (c : Char) : Nat :=
  match c with
  | '0' => 0 | '1' => 1 | '2' => 2 | '3' => 3 | '4' => 4
  | '5' => 5 | '6' => 6 | '7' => 7 | '8' => 8 | '9' => 9
  | _ => 10

/-- Numeric value of a digit string (left inverse of pyStrNatAux). -/
def digitsVal (l : List Char) : Nat := l.foldl (fun a c => a * 10 + digitVal c) 0

theorem digitVal_digitChar {d : Nat} (h : d < 10) : digitVal (digitChar d) = d := by
  interval_cases d <;> rfl

theorem digitsVal_snoc (l : List Char) (c : Char) :
    digitsVal (l ++ [c]) = digitsVal l * 10 + digitVal c := by
  simp [digitsVal, List.foldl_append]

theorem pyStrNatAux_val : ∀ fuel n, n ≤ fuel + 9 → digitsVal (pyStrNatAux fuel n) = n := by
  intro fuel
  induction fuel with
  | zero =>
    intro n h
    have h10 : n < 10 := by omega
    simp [pyStrNatAux, digitsVal, digitVal_digitChar h10]
  | succ f ih =>
    intro n h
    rw [pyStrNatAux]
    split
    · next h10 => simp [digitsVal, digitVal_digitChar h10]
    · next h10 =>
      rw [digitsVal_snoc, ih (n / 10) (by omega), digitVal_digitChar (by omega)]
      omega

theorem pyStrNat_injective : Function.Injective pyStrNat := by
  intro a b h
  have hd : pyStrNatAux a a = pyStrNatAux b b := congrArg String.data h
  have hv := congrArg digitsVal hd
  rwa [pyStrNatAux_val a a (by omega), pyStrNatAux_val b b (by omega)] at hv

/-- Prefixed decimal names built from distinct counters are distinct. -/
theorem pre_pyStrNat_inj {pre : String} {a b : Nat}
    (h : pre ++ pyStrNat a = pre ++ pyStrNat b) : a = b := by
  apply pyStrNat_injective
  have hd := congrArg String.data h
  rw [String.data_append, String.data_append] at hd
  have hc := List.append_cancel_left hd
  cases hs : pyStrNat a
  cases ht : pyStrNat b
  rw [hs, ht] at hc
  exact congrArg String.mk hc

theorem except_bind_ok_iff {α β : Type} (e : Except ConvError α)
    (f : α → Except ConvError β) (b : β) :
    (e >>= f) = .ok b ↔ ∃ a, e = .ok a ∧ f a = .ok b := by
  cases e <;> simp [Bind.bind, Except.bind]

theorem except_pure_eq {α : Type} (a : α) : (pure a : Except ConvError α) = .ok a := rfl

/- ================= Claim theorems ================= -/

/-- C2: For every Box shape, converting full-extents to half-extents and
back (and half-extents to full-extents and back) returns the original
size: the MJCF→SDFormat conversion multiplies each size component by 2,
the SDFormat→MJCF conversion divides each component by 2, and the two are
mutual inverses (exactly, over exact rational arithmetic — hence within
floating-point tolerance). -/
theorem box_size_roundtrip (sq : Q → Q) (q2e : Quat → List Q)
    (body : List MjcfGeom) (nm : Option String) (pose : Pose3d)
    (g : MjcfGeom) (a b c : Q)
    (ht : g.type = some "box") (hs : g.size = [a, b, c]) :
    (mjcf_geom_to_sdf sq g =
        .ok (some { type := .box, box := some ⟨⟨a * 2, b * 2, c * 2⟩⟩ }) ∧
      ∃ g', add_geometry q2e body nm pose
            (some { type := .box, box := some ⟨⟨a * 2, b * 2, c * 2⟩⟩ }) =
          .ok (body ++ [g'], some g') ∧
        g'.type = some "box" ∧ g'.size = [a, b, c]) ∧
    ∀ (v : Vector3d) (sg : SdfGeometry), sg.box = some ⟨v⟩ →
      ∃ g', add_geometry q2e body nm pose (some sg) = .ok (body ++ [g'], some g') ∧
        mjcf_geom_to_sdf sq g' = .ok (some { type := .box, box := some ⟨v⟩ }) := by
  obtain ⟨gn, gt, gsz, gft, gp, ge, gg⟩ := g
  simp only at ht hs
  subst ht hs
  refine ⟨⟨rfl, ?_⟩, ?_⟩
  · refine ⟨{ name := nm, pos := some (vec3d_to_list pose.pos),
              euler := some (q2e pose.rot), type := some "box",
              size := [a * 2 / 2, b * 2 / 2, c * 2 / 2] }, rfl, rfl, ?_⟩
    simp only [List.cons.injEq, and_true]
    refine ⟨by ring, by ring, by ring⟩
  · intro v sg hbox
    obtain ⟨sgt, sgb, sgc, sgcy, sge, sgs, sgp, sgm⟩ := sg
    simp only at hbox
    subst hbox
    refine ⟨{ name := nm, pos := some (vec3d_to_list pose.pos),
              euler := some (q2e pose.rot), type := some "box",
              size := vec3d_to_list (Vector3d.divScalar v 2) }, rfl, ?_⟩
    obtain ⟨vx, vy, vz⟩ := v
    simp [mjcf_geom_to_sdf, list_to_vec3d, pyIndex, vec3d_to_list,
      Vector3d.divScalar, Vector3d.mulScalar, Bind.bind, Except.bind,
      pure, Except.pure]

/-- C2 witness: the round trip evaluated at the concrete box
(2, 4, 6). -/
theorem box_size_roundtrip_witness :
    (mjcf_geom_to_sdf (fun q => q)
        { type := some "box", size := [(2 : Q), 4, 6] } =
        .ok (some { type := .box, box := some ⟨⟨2 * 2, 4 * 2, 6 * 2⟩⟩ }) ∧
      ∃ g', add_geometry (fun _ => []) [] none {}
            (some { type := .box, box := some ⟨⟨2 * 2, 4 * 2, 6 * 2⟩⟩ }) =
          .ok ([] ++ [g'], some g') ∧
        g'.type = some "box" ∧ g'.size = [(2 : Q), 4, 6]) ∧
    ∀ (v : Vector3d) (sg : SdfGeometry), sg.box = some ⟨v⟩ →
      ∃ g', add_geometry (fun _ => []) [] none {} (some sg) =
          .ok ([] ++ [g'], some g') ∧
        mjcf_geom_to_sdf (fun q => q) g' =
          .ok (some { type := .box, box := some ⟨v⟩ }) :=
  box_size_roundtrip (fun q => q) (fun _ => []) [] none {}
    { type := some "box", size := [(2 : Q), 4, 6] } 2 4 6 rfl rfl

/-- C4 counterexample: the claim says a collision attachment whose shape
conversion yields no result is silently omitted with no exception; but
add_collision dereferences add_geometry's None result and raises
AttributeError when the collision has no geometry. -/
theorem add_collision_none_geometry_raises :
    add_collision (fun _ => []) (fun _ => {}) []
      { name := "c1", geometry := none } =
      .error (.attributeError "NoneType object has no attribute group") := rfl

/-- C4 (amended): an attachment whose shape conversion yields no result
is omitted without an exception at the add_geometry level (no geom is
added to the body and None is returned); however, in the SDFormat→MJCF
direction the collision wrapper add_collision then raises an
AttributeError when it sets the group attribute on the None result. -/
theorem none_geometry_omitted_at_add_geometry (q2e : Quat → List Q)
    (pr : SemanticPose → Pose3d) (body : List MjcfGeom) (nm : Option String)
    (pose : Pose3d) (col : SdfCollision) (hg : col.geometry = none) :
    add_geometry q2e body nm pose none = .ok (body, none) ∧
    add_collision q2e pr body col =
      .error (.attributeError "NoneType object has no attribute group") := by
  refine ⟨rfl, ?_⟩
  unfold add_collision
  rw [hg]
  rfl

/-- C4 witness: the amended statement evaluated at a concrete empty body
and geometry-less collision. -/
theorem none_geometry_omitted_at_add_geometry_witness :
    add_geometry (fun _ => []) [] (some "v1") {} none = .ok ([], none) ∧
    add_collision (fun _ => []) (fun _ => {}) []
      { name := "c2", geometry := none } =
      .error (.attributeError "NoneType object has no attribute group") :=
  none_geometry_omitted_at_add_geometry (fun _ => []) (fun _ => {}) []
    (some "v1") {} { name := "c2", geometry := none } rfl

/-- C5: Converting a Mesh shape fails with the unsupported-shape
RuntimeError in both directions, never silently succeeding or producing
an empty result, and the same error (a RuntimeError) is raised for an
unrecognized type string. -/
theorem mesh_and_unknown_shape_raise :
    (∀ (sq : Q → Q) (g : MjcfGeom), g.type = some "mesh" →
      mjcf_geom_to_sdf sq g =
        .error (.runtimeError "Encountered unsupported shape type mesh")) ∧
    (∀ (q2e : Quat → List Q) (body : List MjcfGeom) (nm : Option String)
        (pose : Pose3d) (sg : SdfGeometry) (m : SdfMesh),
      sg.box = none → sg.capsule = none → sg.cylinder = none →
      sg.ellipsoid = none → sg.plane = none → sg.sphere = none →
      sg.mesh = some m →
      add_geometry q2e body nm pose (some sg) =
        .error (.runtimeError "Meshes are not yet supported")) ∧
    (∀ (sq : Q → Q) (g : MjcfGeom) (t : String), g.type = some t →
      t ∉ ["box", "capsule", "cylinder", "ellipsoid", "sphere", "plane"] →
      mjcf_geom_to_sdf sq g =
        .error (.runtimeError ("Encountered unsupported shape type " ++ t))) ∧
    (∀ (q2e : Quat → List Q) (body : List MjcfGeom) (nm : Option String)
        (pose : Pose3d) (sg : SdfGeometry),
      sg.box = none → sg.capsule = none → sg.cylinder = none →
      sg.ellipsoid = none → sg.plane = none → sg.sphere = none →
      sg.mesh = none →
      add_geometry q2e body nm pose (some sg) =
        .error (.runtimeError
          ("Encountered unsupported shape type " ++ sg.type.pyStr))) := by
  refine ⟨?_, ?_, ?_, ?_⟩
  · intro sq g ht
    obtain ⟨gn, gt, gsz, gft, gp, ge, gg⟩ := g
    simp only at ht
    subst ht
    rfl
  · intro q2e body nm pose sg m h1 h2 h3 h4 h5 h6 h7
    obtain ⟨sgt, sgb, sgc, sgcy, sge, sgs, sgp, sgm⟩ := sg
    simp only at h1 h2 h3 h4 h5 h6 h7
    subst h1 h2 h3 h4 h5 h6 h7
    rfl
  · intro sq g t ht hn
    obtain ⟨gn, gt, gsz, gft, gp, ge, gg⟩ := g
    simp only at ht
    subst ht
    simp only [List.mem_cons, List.not_mem_nil, or_false, not_or] at hn
    obtain ⟨h1, h2, h3, h4, h5, h6⟩ := hn
    simp [mjcf_geom_to_sdf, h1, h2, h3, h4, h5, h6, pyStrOptString]
  · intro q2e body nm pose sg h1 h2 h3 h4 h5 h6 h7
    obtain ⟨sgt, sgb, sgc, sgcy, sge, sgs, sgp, sgm⟩ := sg
    simp only at h1 h2 h3 h4 h5 h6 h7
    subst h1 h2 h3 h4 h5 h6 h7
    rfl

/-- C5 witness: a mesh geom, a mesh geometry, the unknown type string
"torus" and an empty geometry, each evaluated concretely. -/
theorem mesh_and_unknown_shape_raise_witness :
    mjcf_geom_to_sdf (fun q => q) { type := some "mesh" } =
      .error (.runtimeError "Encountered unsupported shape type mesh") ∧
    add_geometry (fun _ => []) [] none {} (some { mesh := some ⟨"m.dae"⟩ }) =
      .error (.runtimeError "Meshes are not yet supported") ∧
    mjcf_geom_to_sdf (fun q => q) { type := some "torus" } =
      .error (.runtimeError ("Encountered unsupported shape type " ++ "torus")) ∧
    add_geometry (fun _ => []) [] none {} (some {}) =
      .error (.runtimeError
        ("Encountered unsupported shape type " ++ GeometryType.pyStr .empty)) :=
  ⟨mesh_and_unknown_shape_raise.1 (fun q => q) { type := some "mesh" } rfl,
   mesh_and_unknown_shape_raise.2.1 (fun _ => []) [] none {}
     { mesh := some ⟨"m.dae"⟩ } ⟨"m.dae"⟩ rfl rfl rfl rfl rfl rfl rfl,
   mesh_and_unknown_shape_raise.2.2.1 (fun q => q) { type := some "torus" }
     "torus" rfl (by decide),
   mesh_and_unknown_shape_raise.2.2.2 (fun _ => []) [] none {} {}
     rfl rfl rfl rfl rfl rfl rfl⟩

/-- C6: For every Capsule or Cylinder geom with a two-endpoint fromto
segment, the emitted shape's length is the Euclidean distance between
the two 3D endpoints (for any endpoints, hence any segment orientation)
and its radius is the first size component; without a fromto segment the
length is the second size component (the half-length) multiplied by 2. -/
theorem capsule_cylinder_length :
    (∀ (sq : Q → Q) (g : MjcfGeom) (r : Q) (rest : List Q)
        (x1 y1 z1 x2 y2 z2 : Q),
      g.type = some "capsule" → g.size = r :: rest →
      g.fromto = some [x1, y1, z1, x2, y2, z2] →
      mjcf_geom_to_sdf sq g = .ok (some
        { type := .capsule,
          capsule := some ⟨r, vector3d_distance sq ⟨x1, y1, z1⟩ ⟨x2, y2, z2⟩⟩ })) ∧
    (∀ (sq : Q → Q) (g : MjcfGeom) (r h : Q) (rest : List Q),
      g.type = some "capsule" → g.size = r :: h :: rest → g.fromto = none →
      mjcf_geom_to_sdf sq g =
        .ok (some { type := .capsule, capsule := some ⟨r, h * 2⟩ })) ∧
    (∀ (sq : Q → Q) (g : MjcfGeom) (r : Q) (rest : List Q)
        (x1 y1 z1 x2 y2 z2 : Q),
      g.type = some "cylinder" → g.size = r :: rest →
      g.fromto = some [x1, y1, z1, x2, y2, z2] →
      mjcf_geom_to_sdf sq g = .ok (some
        { type := .cylinder,
          cylinder := some ⟨r, vector3d_distance sq ⟨x1, y1, z1⟩ ⟨x2, y2, z2⟩⟩ })) ∧
    (∀ (sq : Q → Q) (g : MjcfGeom) (r h : Q) (rest : List Q),
      g.type = some "cylinder" → g.size = r :: h :: rest → g.fromto = none →
      mjcf_geom_to_sdf sq g =
        .ok (some { type := .cylinder, cylinder := some ⟨r, h * 2⟩ })) := by
  refine ⟨?_, ?_, ?_, ?_⟩ <;>
    (first
      | (intro sq g r rest x1 y1 z1 x2 y2 z2 ht hs hf
         obtain ⟨gn, gt, gsz, gft, gp, ge, gg⟩ := g
         simp only at ht hs hf
         subst ht hs hf
         rfl)
      | (intro sq g r h rest ht hs hf
         obtain ⟨gn, gt, gsz, gft, gp, ge, gg⟩ := g
         simp only at ht hs hf
         subst ht hs hf
         rfl))

/-- C6 witness: a capsule with fromto endpoints (1,2,3)-(4,5,6), a
capsule with half-length 5, and the cylinder counterparts, evaluated
with the identity standing in for the external square root. -/
theorem capsule_cylinder_length_witness :
    mjcf_geom_to_sdf (fun q => q)
        { type := some "capsule", size := [(1 : Q), 7],
          fromto := some [1, 2, 3, 4, 5, 6] } =
      .ok (some
        { type := .capsule,
          capsule := some ⟨1, vector3d_distance (fun q => q) ⟨1, 2, 3⟩ ⟨4, 5, 6⟩⟩ }) ∧
    mjcf_geom_to_sdf (fun q => q)
        { type := some "capsule", size := [(1 : Q), 5] } =
      .ok (some { type := .capsule, capsule := some ⟨1, 5 * 2⟩ }) ∧
    mjcf_geom_to_sdf (fun q => q)
        { type := some "cylinder", size := [(2 : Q)],
          fromto := some [0, 0, 0, 3, 4, 0] } =
      .ok (some
        { type := .cylinder,
          cylinder := some ⟨2, vector3d_distance (fun q => q) ⟨0, 0, 0⟩ ⟨3, 4, 0⟩⟩ }) ∧
    mjcf_geom_to_sdf (fun q => q)
        { type := some "cylinder", size := [(2 : Q), 6] } =
      .ok (some { type := .cylinder, cylinder := some ⟨2, 6 * 2⟩ }) :=
  ⟨capsule_cylinder_length.1 (fun q => q) _ 1 [7] 1 2 3 4 5 6 rfl rfl rfl,
   capsule_cylinder_length.2.1 (fun q => q) _ 1 5 [] rfl rfl rfl,
   capsule_cylinder_length.2.2.1 (fun q => q) _ 2 [] 0 0 0 3 4 0 rfl rfl rfl,
   capsule_cylinder_length.2.2.2 (fun q => q) _ 2 6 [] rfl rfl rfl⟩

/-- C10: mjcf_geom_to_sdf never produces a None result (it returns a
geometry or raises), so the None-geometry fallback branches of
mjcf_visual_to_sdf and mjcf_collision_to_sdf are unreachable: for every
geom of a supported type string they never return a None element. -/
theorem geom_conversion_never_none :
    (∀ (sq : Q → Q) (g : MjcfGeom), mjcf_geom_to_sdf sq g ≠ .ok none) ∧
    (∀ (sq : Q → Q) (g : MjcfGeom) (t : String) (n : Nat),
      g.type = some t →
      t ∈ ["box", "capsule", "cylinder", "ellipsoid", "sphere", "plane"] →
      (mjcf_visual_to_sdf sq g n).2 ≠ .ok none ∧
      (mjcf_collision_to_sdf sq g n).2 ≠ .ok none) := by
  have part1 : ∀ (sq : Q → Q) (g : MjcfGeom), mjcf_geom_to_sdf sq g ≠ .ok none := by
    intro sq g h
    obtain ⟨gn, gt, gsz, gft, gp, ge, gg⟩ := g
    rcases gft with _ | ft <;>
      · simp only [mjcf_geom_to_sdf] at h
        split_ifs at h <;>
          simp [except_bind_ok_iff, except_pure_eq] at h
  refine ⟨part1, ?_⟩
  intro sq g t n _ _
  constructor
  · unfold mjcf_visual_to_sdf
    rcases hg : mjcf_geom_to_sdf sq g with e | _ | v
    · simp
    · exact absurd hg (part1 sq g)
    · simp
  · unfold mjcf_collision_to_sdf
    rcases hg : mjcf_geom_to_sdf sq g with e | _ | v
    · simp
    · exact absurd hg (part1 sq g)
    · simp

/-- C10 witness: evaluated at a concrete sphere geom with counter 0. -/
theorem geom_conversion_never_none_witness :
    mjcf_geom_to_sdf (fun q => q) { type := some "sphere", size := [(1 : Q)] } ≠
      .ok none ∧
    (mjcf_visual_to_sdf (fun q => q)
        { type := some "sphere", size := [(1 : Q)] } 0).2 ≠ .ok none ∧
    (mjcf_collision_to_sdf (fun q => q)
        { type := some "sphere", size := [(1 : Q)] } 0).2 ≠ .ok none :=
  ⟨geom_conversion_never_none.1 (fun q => q) _,
   (geom_conversion_never_none.2 (fun q => q)
      { type := some "sphere", size := [(1 : Q)] } "sphere" 0 rfl
      (by decide)).1,
   (geom_conversion_never_none.2 (fun q => q)
      { type := some "sphere", size := [(1 : Q)] } "sphere" 0 rfl
      (by decide)).2⟩

/-- An anonymous sphere geom used to exhibit the module-level counter
leak across conversion runs. -/
def leak_geom : MjcfGeom := { type := some "sphere", size := [1] }

/-- C3 (evaluation at the failing input): within one process, the
anonymous-name counter does NOT restart at zero for a second conversion
run.  The first run starts from the module-load value VISUAL_NUMBER = 0
and emits "unnamed_visual_0", leaving the global at 1; a second run then
emits "unnamed_visual_1", not "unnamed_visual_0" — nothing in the code
resets the module-level counter between runs. -/
theorem visual_counter_leak :
    mjcf_visual_to_sdf (fun q => q) leak_geom VISUAL_NUMBER =
      (1, .ok (some { name := "unnamed_visual_" ++ pyStrNat 0,
                      geometry := some { type := .sphere, sphere := some ⟨1⟩ } })) ∧
    mjcf_visual_to_sdf (fun q => q) leak_geom 1 =
      (2, .ok (some { name := "unnamed_visual_" ++ pyStrNat 1,
                      geometry := some { type := .sphere, sphere := some ⟨1⟩ } })) ∧
    "unnamed_visual_" ++ pyStrNat 0 = "unnamed_visual_0" ∧
    "unnamed_visual_" ++ pyStrNat 1 = "unnamed_visual_1" ∧
    ("unnamed_visual_1" : String) ≠ "unnamed_visual_0" :=
  ⟨rfl, rfl, by decide, by decide, by decide⟩

/- ================= Naming run machinery (C8) ================= -/

/-- A conversion run at the geometry level: a sequence of calls to
mjcf_visual_to_sdf threading the VISUAL_NUMBER global. -/
def visual_run (sq : Q → Q) :
    List MjcfGeom → Nat → Nat × List (Except ConvError (Option SdfVisual))
  | [], n => (n, [])
  | g :: gs, n =>
    let step := mjcf_visual_to_sdf sq g n
    let rest := visual_run sq gs step.1
    (rest.1, step.2 :: rest.2)

/-- A conversion run threading the COLLISION_NUMBER global. -/
def collision_run (sq : Q → Q) :
    List MjcfGeom → Nat → Nat × List (Except ConvError (Option SdfCollision))
  | [], n => (n, [])
  | g :: gs, n =>
    let step := mjcf_collision_to_sdf sq g n
    let rest := collision_run sq gs step.1
    (rest.1, step.2 :: rest.2)

theorem visual_step_anon (sq : Q → Q) (g : MjcfGeom) (n : Nat)
    (h : g.name = none) :
    (mjcf_visual_to_sdf sq g n).1 = n + 1 ∧
    ∀ v, (mjcf_visual_to_sdf sq g n).2 = .ok (some v) →
      v.name = "unnamed_visual_" ++ pyStrNat n := by
  unfold mjcf_visual_to_sdf
  rw [h]
  cases hg : mjcf_geom_to_sdf sq g with
  | error e => simp
  | ok o =>
    cases o with
    | none => simp
    | some gg =>
      refine ⟨rfl, ?_⟩
      intro v hv
      simp only [Except.ok.injEq, Option.some.injEq] at hv
      rw [← hv]

theorem visual_step_counter_ge (sq : Q → Q) (g : MjcfGeom) (n : Nat) :
    n ≤ (mjcf_visual_to_sdf sq g n).1 := by
  unfold mjcf_visual_to_sdf
  rcases g.name with _ | s <;>
    rcases mjcf_geom_to_sdf sq g with e | _ | gg <;> simp

theorem collision_step_anon (sq : Q → Q) (g : MjcfGeom) (n : Nat)
    (h : g.name = none) :
    (mjcf_collision_to_sdf sq g n).1 = n + 1 ∧
    ∀ c, (mjcf_collision_to_sdf sq g n).2 = .ok (some c) →
      c.name = "unnamed_collision_" ++ pyStrNat n := by
  unfold mjcf_collision_to_sdf
  rw [h]
  cases hg : mjcf_geom_to_sdf sq g with
  | error e => simp
  | ok o =>
    cases o with
    | none => simp
    | some gg =>
      refine ⟨rfl, ?_⟩
      intro c hc
      simp only [Except.ok.injEq, Option.some.injEq] at hc
      rw [← hc]

theorem collision_step_counter_ge (sq : Q → Q) (g : MjcfGeom) (n : Nat) :
    n ≤ (mjcf_collision_to_sdf sq g n).1 := by
  unfold mjcf_collision_to_sdf
  rcases g.name with _ | s <;>
    rcases mjcf_geom_to_sdf sq g with e | _ | gg <;> simp

/-- Any anonymous visual emitted by a run that starts with counter `n`
carries a name built from some counter value ≥ n. -/
theorem visual_run_anon_ge (sq : Q → Q) :
    ∀ (gs : List MjcfGeom) (n j : Nat) (gj : MjcfGeom) (v : SdfVisual),
      gs.get? j = some gj → gj.name = none →
      (visual_run sq gs n).2.get? j = some (.ok (some v)) →
      ∃ m, n ≤ m ∧ v.name = "unnamed_visual_" ++ pyStrNat m := by
  intro gs
  induction gs with
  | nil => intro n j gj v hj; simp at hj
  | cons g gs ih =>
    intro n j gj v hj hname hr
    cases j with
    | zero =>
      simp only [List.get?_cons_zero, Option.some.injEq] at hj
      subst hj
      simp only [visual_run, List.get?_cons_zero, Option.some.injEq] at hr
      exact ⟨n, le_rfl, (visual_step_anon sq g n hname).2 v hr⟩
    | succ j' =>
      simp only [List.get?_cons_succ] at hj
      simp only [visual_run, List.get?_cons_succ] at hr
      obtain ⟨m, hm, hn⟩ :=
        ih (mjcf_visual_to_sdf sq g n).1 j' gj v hj hname hr
      exact ⟨m, le_trans (visual_step_counter_ge sq g n) hm, hn⟩

theorem collision_run_anon_ge (sq : Q → Q) :
    ∀ (gs : List MjcfGeom) (n j : Nat) (gj : MjcfGeom) (c : SdfCollision),
      gs.get? j = some gj → gj.name = none →
      (collision_run sq gs n).2.get? j = some (.ok (some c)) →
      ∃ m, n ≤ m ∧ c.name = "unnamed_collision_" ++ pyStrNat m := by
  intro gs
  induction gs with
  | nil => intro n j gj c hj; simp at hj
  | cons g gs ih =>
    intro n j gj c hj hname hr
    cases j with
    | zero =>
      simp only [List.get?_cons_zero, Option.some.injEq] at hj
      subst hj
      simp only [collision_run, List.get?_cons_zero, Option.some.injEq] at hr
      exact ⟨n, le_rfl, (collision_step_anon sq g n hname).2 c hr⟩
    | succ j' =>
      simp only [List.get?_cons_succ] at hj
      simp only [collision_run, List.get?_cons_succ] at hr
      obtain ⟨m, hm, hn⟩ :=
        ih (mjcf_collision_to_sdf sq g n).1 j' gj c hj hname hr
      exact ⟨m, le_trans (collision_step_counter_ge sq g n) hm, hn⟩

theorem visual_run_anon_distinct (sq : Q → Q) :
    ∀ (gs : List MjcfGeom) (n i j : Nat) (gi gj : MjcfGeom)
      (vi vj : SdfVisual),
      i < j → gs.get? i = some gi → gi.name = none →
      gs.get? j = some gj → gj.name = none →
      (visual_run sq gs n).2.get? i = some (.ok (some vi)) →
      (visual_run sq gs n).2.get? j = some (.ok (some vj)) →
      vi.name ≠ vj.name := by
  intro gs
  induction gs with
  | nil => intro n i j gi gj vi vj hij hi; simp at hi
  | cons g gs ih =>
    intro n i j gi gj vi vj hij hi hni hj hnj hri hrj
    obtain ⟨j', rfl⟩ : ∃ j', j = j' + 1 := ⟨j - 1, by omega⟩
    simp only [List.get?_cons_succ] at hj
    simp only [visual_run, List.get?_cons_succ] at hrj
    cases i with
    | zero =>
      simp only [List.get?_cons_zero, Option.some.injEq] at hi
      subst hi
      simp only [visual_run, List.get?_cons_zero, Option.some.injEq] at hri
      have hname_i := (visual_step_anon sq g n hni).2 vi hri
      have hcnt := (visual_step_anon sq g n hni).1
      obtain ⟨m, hm, hname_j⟩ :=
        visual_run_anon_ge sq gs (mjcf_visual_to_sdf sq g n).1 j' gj vj
          hj hnj hrj
      rw [hcnt] at hm
      rw [hname_i, hname_j]
      intro heq
      have := pre_pyStrNat_inj heq
      omega
    | succ i' =>
      simp only [List.get?_cons_succ] at hi
      simp only [visual_run, List.get?_cons_succ] at hri
      exact ih _ i' j' gi gj vi vj (by omega) hi hni hj hnj hri hrj

theorem collision_run_anon_distinct (sq : Q → Q) :
    ∀ (gs : List MjcfGeom) (n i j : Nat) (gi gj : MjcfGeom)
      (ci cj : SdfCollision),
      i < j → gs.get? i = some gi → gi.name = none →
      gs.get? j = some gj → gj.name = none →
      (collision_run sq gs n).2.get? i = some (.ok (some ci)) →
      (collision_run sq gs n).2.get? j = some (.ok (some cj)) →
      ci.name ≠ cj.name := by
  intro gs
  induction gs with
  | nil => intro n i j gi gj ci cj hij hi; simp at hi
  | cons g gs ih =>
    intro n i j gi gj ci cj hij hi hni hj hnj hri hrj
    obtain ⟨j', rfl⟩ : ∃ j', j = j' + 1 := ⟨j - 1, by omega⟩
    simp only [List.get?_cons_succ] at hj
    simp only [collision_run, List.get?_cons_succ] at hrj
    cases i with
    | zero =>
      simp only [List.get?_cons_zero, Option.some.injEq] at hi
      subst hi
      simp only [collision_run, List.get?_cons_zero, Option.some.injEq] at hri
      have hname_i := (collision_step_anon sq g n hni).2 ci hri
      have hcnt := (collision_step_anon sq g n hni).1
      obtain ⟨m, hm, hname_j⟩ :=
        collision_run_anon_ge sq gs (mjcf_collision_to_sdf sq g n).1 j' gj cj
          hj hnj hrj
      rw [hcnt] at hm
      rw [hname_i, hname_j]
      intro heq
      have := pre_pyStrNat_inj heq
      omega
    | succ i' =>
      simp only [List.get?_cons_succ] at hi
      simp only [collision_run, List.get?_cons_succ] at hri
      exact ih _ i' j' gi gj ci cj (by omega) hi hni hj hnj hri hrj

/-- C8: For every geometry attachment with a declared name the emitted
element's name is the role prefix ("visual_" / "collision_") plus the
declared name; for every attachment without a name the emitted name is
"unnamed_(role)_(n)" where n is the per-role counter, which increases by
one at each anonymous attachment, so within one conversion run no two
anonymous names of the same role are equal. -/
theorem geom_naming :
    (∀ (sq : Q → Q) (g : MjcfGeom) (s : String) (n : Nat) (v : SdfVisual),
      g.name = some s → (mjcf_visual_to_sdf sq g n).2 = .ok (some v) →
      v.name = "visual_" ++ s ∧ (mjcf_visual_to_sdf sq g n).1 = n) ∧
    (∀ (sq : Q → Q) (g : MjcfGeom) (s : String) (n : Nat) (c : SdfCollision),
      g.name = some s → (mjcf_collision_to_sdf sq g n).2 = .ok (some c) →
      c.name = "collision_" ++ s ∧ (mjcf_collision_to_sdf sq g n).1 = n) ∧
    (∀ (sq : Q → Q) (g : MjcfGeom) (n : Nat), g.name = none →
      (mjcf_visual_to_sdf sq g n).1 = n + 1 ∧
      ∀ v, (mjcf_visual_to_sdf sq g n).2 = .ok (some v) →
        v.name = "unnamed_visual_" ++ pyStrNat n) ∧
    (∀ (sq : Q → Q) (g : MjcfGeom) (n : Nat), g.name = none →
      (mjcf_collision_to_sdf sq g n).1 = n + 1 ∧
      ∀ c, (mjcf_collision_to_sdf sq g n).2 = .ok (some c) →
        c.name = "unnamed_collision_" ++ pyStrNat n) ∧
    (∀ (sq : Q → Q) (gs : List MjcfGeom) (n i j : Nat) (gi gj : MjcfGeom)
        (vi vj : SdfVisual),
      i < j → gs.get? i = some gi → gi.name = none →
      gs.get? j = some gj → gj.name = none →
      (visual_run sq gs n).2.get? i = some (.ok (some vi)) →
      (visual_run sq gs n).2.get? j = some (.ok (some vj)) →
      vi.name ≠ vj.name) ∧
    (∀ (sq : Q → Q) (gs : List MjcfGeom) (n i j : Nat) (gi gj : MjcfGeom)
        (ci cj : SdfCollision),
      i < j → gs.get? i = some gi → gi.name = none →
      gs.get? j = some gj → gj.name = none →
      (collision_run sq gs n).2.get? i = some (.ok (some ci)) →
      (collision_run sq gs n).2.get? j = some (.ok (some cj)) →
      ci.name ≠ cj.name) := by
  refine ⟨?_, ?_, ?_, ?_, ?_, ?_⟩
  · intro sq g s n v h hv
    unfold mjcf_visual_to_sdf at hv ⊢
    rw [h] at hv ⊢
    cases hg : mjcf_geom_to_sdf sq g <;> rw [hg] at hv
    · simp at hv
    · next o =>
      cases o with
      | none => simp at hv
      | some gg =>
        simp only [Except.ok.injEq, Option.some.injEq] at hv
        exact ⟨by rw [← hv], rfl⟩
  · intro sq g s n c h hc
    unfold mjcf_collision_to_sdf at hc ⊢
    rw [h] at hc ⊢
    cases hg : mjcf_geom_to_sdf sq g <;> rw [hg] at hc
    · simp at hc
    · next o =>
      cases o with
      | none => simp at hc
      | some gg =>
        simp only [Except.ok.injEq, Option.some.injEq] at hc
        exact ⟨by rw [← hc], rfl⟩
  · intro sq g n h
    exact visual_step_anon sq g n h
  · intro sq g n h
    exact collision_step_anon sq g n h
  · intro sq gs
    exact visual_run_anon_distinct sq gs
  · intro sq gs
    exact collision_run_anon_distinct sq gs

/-- C8 witness: a named box visual/collision ("visual_b1",
"collision_b1") and a two-element anonymous run for each role, evaluated
concretely. -/
theorem geom_naming_witness :
    ((⟨"visual_s1", some { type := .sphere, sphere := some ⟨1⟩ }⟩ :
        SdfVisual).name = "visual_" ++ "s1" ∧
      (mjcf_visual_to_sdf (fun q => q)
        { name := some "s1", type := some "sphere", size := [(1 : Q)] } 5).1 = 5) ∧
    ((⟨"collision_s1", {}, some { type := .sphere, sphere := some ⟨1⟩ }⟩ :
        SdfCollision).name = "collision_" ++ "s1" ∧
      (mjcf_collision_to_sdf (fun q => q)
        { name := some "s1", type := some "sphere", size := [(1 : Q)] } 5).1 = 5) ∧
    (⟨"unnamed_visual_" ++ pyStrNat 0, some { type := .sphere, sphere := some ⟨1⟩ }⟩ :
        SdfVisual).name ≠
      (⟨"unnamed_visual_" ++ pyStrNat 1, some { type := .sphere, sphere := some ⟨1⟩ }⟩ :
        SdfVisual).name ∧
    (⟨"unnamed_collision_" ++ pyStrNat 0, {},
        some { type := .sphere, sphere := some ⟨1⟩ }⟩ : SdfCollision).name ≠
      (⟨"unnamed_collision_" ++ pyStrNat 1, {},
        some { type := .sphere, sphere := some ⟨1⟩ }⟩ : SdfCollision).name :=
  ⟨geom_naming.1 (fun q => q)
      { name := some "s1", type := some "sphere", size := [(1 : Q)] } "s1" 5
      ⟨"visual_s1", some { type := .sphere, sphere := some ⟨1⟩ }⟩ rfl rfl,
   geom_naming.2.1 (fun q => q)
      { name := some "s1", type := some "sphere", size := [(1 : Q)] } "s1" 5
      ⟨"collision_s1", {}, some { type := .sphere, sphere := some ⟨1⟩ }⟩ rfl rfl,
   geom_naming.2.2.2.2.1 (fun q => q) [leak_geom, leak_geom] 0 0 1
      leak_geom leak_geom
      ⟨"unnamed_visual_" ++ pyStrNat 0, some { type := .sphere, sphere := some ⟨1⟩ }⟩
      ⟨"unnamed_visual_" ++ pyStrNat 1, some { type := .sphere, sphere := some ⟨1⟩ }⟩
      (by decide) rfl rfl rfl rfl rfl rfl,
   geom_naming.2.2.2.2.2 (fun q => q) [leak_geom, leak_geom] 0 0 1
      leak_geom leak_geom
      ⟨"unnamed_collision_" ++ pyStrNat 0, {},
        some { type := .sphere, sphere := some ⟨1⟩ }⟩
      ⟨"unnamed_collision_" ++ pyStrNat 1, {},
        some { type := .sphere, sphere := some ⟨1⟩ }⟩
      (by decide) rfl rfl rfl rfl rfl rfl⟩

/- ================= Walker characterization lemmas ================= -/

/-- The link the walker builds for a body: the externally converted link
with the body's converted camera sensors appended. -/
def body_link (C : Collaborators) (b : MjcfBody) (p : Option String) : SdfLink :=
  b.camera.foldl (fun l camera =>
    match C.mjcf_camera_sensor_to_sdf camera with
    | some sensor => { l with sensors := l.sensors ++ [sensor] }
    | none => l) (C.mjcf_body_to_sdf b p)

theorem joint_fold_spec (C : Collaborators) (p : Option String) (bn : String) :
    ∀ (js : List MjcfJoint) (m : SdfModel),
      js.foldl (fun m joint =>
        match C.mjcf_joint_to_sdf (C.apply_modifiers_joint joint) p bn with
        | some joint_sdf => { m with joints := m.joints ++ [joint_sdf] }
        | none => m) m =
      { m with joints := m.joints ++
          js.filterMap (fun jt => C.mjcf_joint_to_sdf (C.apply_modifiers_joint jt) p bn) } := by
  intro js
  induction js with
  | nil => intro m; simp
  | cons jt js ih =>
    intro m
    cases hc : C.mjcf_joint_to_sdf (C.apply_modifiers_joint jt) p bn <;>
      simp [hc, ih, List.filterMap_cons]

/-- One step of the walker loop, characterized: the per-body work appends
the converted declared joints, then the synthesized fixed joint when
there is no declared joint and no freejoint, then the link, and recurses
into the children with the body's name as parent. -/
theorem iterate_bodies_cons (C : Collaborators) (n : String)
    (j : List MjcfJoint) (f : Option MjcfFreejoint) (c : List MjcfCamera)
    (l : List MjcfLight) (ch : List MjcfBody) (rest : List MjcfBody)
    (m : SdfModel) (p : Option String) :
    iterate_bodies C (.mk n j f c l ch :: rest) m p =
      iterate_bodies C rest
        (iterate_bodies C ch
          { m with
            joints := m.joints ++
              j.filterMap (fun jt => C.mjcf_joint_to_sdf (C.apply_modifiers_joint jt) p n) ++
              (if j.length = 0 ∧ f = none then [add_fixed_joint p n] else []),
            links := m.links ++ [body_link C (.mk n j f c l ch) p] }
          (some n)) p := by
  simp only [iterate_bodies]
  rw [joint_fold_spec]
  by_cases hcond : j = [] ∧ f = none <;>
    simp [hcond, body_link, MjcfBody.camera, List.length_eq_zero]

theorem iterate_bodies_spec :
    ∀ (fuel : Nat) (bs : List MjcfBody), sizeOf bs ≤ fuel →
      ∀ (C : Collaborators) (m : SdfModel) (p : Option String),
        (iterate_bodies C bs m p).name = m.name ∧
        (iterate_bodies C bs m p).static = m.static ∧
        (iterate_bodies C bs m p).joints =
          m.joints ++ (iterate_bodies C bs {} p).joints ∧
        (iterate_bodies C bs m p).links =
          m.links ++ (iterate_bodies C bs {} p).links := by
  intro fuel
  induction fuel with
  | zero =>
    intro bs hbs
    exfalso
    cases bs <;> simp at hbs
  | succ fu ih =>
    intro bs hbs C m p
    cases bs with
    | nil => simp [iterate_bodies]
    | cons b rest =>
      obtain ⟨n, j, f, c, l, ch⟩ := b
      have hsz : sizeOf ch ≤ fu ∧ sizeOf rest ≤ fu := by
        simp at hbs
        omega
      rw [iterate_bodies_cons, iterate_bodies_cons]
      obtain ⟨ihcn, ihcs, ihcj, ihcl⟩ :=
        ih ch hsz.1 C
          { m with
            joints := m.joints ++
              j.filterMap (fun jt => C.mjcf_joint_to_sdf (C.apply_modifiers_joint jt) p n) ++
              (if j.length = 0 ∧ f = none then [add_fixed_joint p n] else []),
            links := m.links ++ [body_link C (.mk n j f c l ch) p] }
          (some n)
      obtain ⟨ihcn0, ihcs0, ihcj0, ihcl0⟩ :=
        ih ch hsz.1 C
          { ({} : SdfModel) with
            joints := ([] : List SdfJoint) ++
              j.filterMap (fun jt => C.mjcf_joint_to_sdf (C.apply_modifiers_joint jt) p n) ++
              (if j.length = 0 ∧ f = none then [add_fixed_joint p n] else []),
            links := ([] : List SdfLink) ++ [body_link C (.mk n j f c l ch) p] }
          (some n)
      obtain ⟨ihrn, ihrs, ihrj, ihrl⟩ :=
        ih rest hsz.2 C
          (iterate_bodies C ch
            { m with
              joints := m.joints ++
                j.filterMap (fun jt => C.mjcf_joint_to_sdf (C.apply_modifiers_joint jt) p n) ++
                (if j.length = 0 ∧ f = none then [add_fixed_joint p n] else []),
              links := m.links ++ [body_link C (.mk n j f c l ch) p] }
            (some n)) p
      obtain ⟨ihrn0, ihrs0, ihrj0, ihrl0⟩ :=
        ih rest hsz.2 C
          (iterate_bodies C ch
            { ({} : SdfModel) with
              joints := ([] : List SdfJoint) ++
                j.filterMap (fun jt => C.mjcf_joint_to_sdf (C.apply_modifiers_joint jt) p n) ++
                (if j.length = 0 ∧ f = none then [add_fixed_joint p n] else []),
              links := ([] : List SdfLink) ++ [body_link C (.mk n j f c l ch) p] }
            (some n)) p
      refine ⟨?_, ?_, ?_, ?_⟩
      · rw [ihrn, ihcn]
      · rw [ihrs, ihcs]
      · rw [ihrj, ihcj, ihrj0, ihcj0]
        simp [List.append_assoc]
      · rw [ihrl, ihcl, ihrl0, ihcl0]
        simp [List.append_assoc]

/-- The frame property of the walker: the accumulated model's name and
static flag are untouched, and joints and links are appended after the
incoming model's. -/
theorem iterate_bodies_frame (C : Collaborators) (bs : List MjcfBody)
    (m : SdfModel) (p : Option String) :
    (iterate_bodies C bs m p).name = m.name ∧
    (iterate_bodies C bs m p).static = m.static ∧
    (iterate_bodies C bs m p).joints =
      m.joints ++ (iterate_bodies C bs {} p).joints ∧
    (iterate_bodies C bs m p).links =
      m.links ++ (iterate_bodies C bs {} p).links :=
  iterate_bodies_spec (sizeOf bs) bs le_rfl C m p

theorem lights_fold_frame (C : Collaborators) :
    ∀ (ls : List MjcfLight) (w : SdfWorld),
      (ls.foldl (fun w light =>
        { w with lights := w.lights ++
            [C.mjcf_light_to_sdf (C.apply_modifiers_light light)] }) w).models =
        w.models ∧
      (ls.foldl (fun w light =>
        { w with lights := w.lights ++
            [C.mjcf_light_to_sdf (C.apply_modifiers_light light)] }) w).plugins =
        w.plugins := by
  intro ls
  induction ls with
  | nil => intro w; exact ⟨rfl, rfl⟩
  | cons x xs ih =>
    intro w
    simpa using ih { w with lights := w.lights ++
      [C.mjcf_light_to_sdf (C.apply_modifiers_light x)] }

theorem apply_option_settings_frame (o : Option MjcfOption) (w : SdfWorld) :
    (apply_option_settings o w).models = w.models ∧
    (apply_option_settings o w).plugins = w.plugins := by
  cases o with
  | none => exact ⟨rfl, rfl⟩
  | some oo =>
    obtain ⟨fg, gv, mg, wd⟩ := oo
    rcases gv with _ | gvv <;> rcases mg with _ | mgv <;> rcases wd with _ | wdv <;>
      by_cases hfg : fg = some "disable" <;>
        simp [apply_option_settings, hfg]

/-- C1: every body with zero declared joints and no freejoint marker gets
exactly one synthesized Fixed joint connecting it to its immediate
structural parent, and bodies with declared joints get no synthesized
joint: the joints the walker emits for a body are exactly the converted
declared joints, followed by the single synthesized fixed joint precisely
when the body declares no joint and is not free-floating, followed by
the contributions of its descendants (processed with the body's own name
as their parent). -/
theorem fixed_joint_synthesis (C : Collaborators) (b : MjcfBody)
    (m : SdfModel) (p : Option String) :
    (iterate_bodies C [b] m p).joints =
      m.joints ++
      b.joint.filterMap
        (fun jt => C.mjcf_joint_to_sdf (C.apply_modifiers_joint jt) p b.name) ++
      (if b.joint.length = 0 ∧ b.freejoint = none
        then [add_fixed_joint p b.name] else []) ++
      (iterate_bodies C b.body {} (some b.name)).joints := by
  obtain ⟨n, j, f, c, l, ch⟩ := b
  rw [iterate_bodies_cons]
  simp only [iterate_bodies]
  rw [(iterate_bodies_frame C ch _ (some n)).2.2.1]
  simp [MjcfBody.name, MjcfBody.joint, MjcfBody.freejoint, MjcfBody.body,
    List.append_assoc]

/-- C7: the outermost world body is emitted as a separate always-static
model container, added to the destination world as a model distinct from
the main articulated model, and the articulated model's name is the
source root's declared name, or the literal "model" when absent. -/
theorem static_world_model_separation (C : Collaborators)
    (mjcf_root : MjcfRoot) (world : SdfWorld) (export_world_plugins : Bool) :
    ∃ ms mm : SdfModel,
      (mjcf_worldbody_to_sdf C mjcf_root world export_world_plugins).models =
        world.models ++ [ms, mm] ∧
      ms.static = true ∧
      ms.name = C.find_unique_name mjcf_root.worldbody "geom" "static" ∧
      ms.links = [body_link C mjcf_root.worldbody none] ∧
      mm.static = false ∧
      mm.name = (match mjcf_root.model with | some m => m | none => "model") ∧
      ms ≠ mm := by
  refine ⟨{ name := C.find_unique_name mjcf_root.worldbody "geom" "static",
            static := true,
            links := [body_link C mjcf_root.worldbody none], joints := [] },
          iterate_bodies C mjcf_root.worldbody.body
            { name := match mjcf_root.model with | some m => m | none => "model" }
            none,
          ?_, rfl, rfl, rfl, ?_, ?_, ?_⟩
  · unfold mjcf_worldbody_to_sdf
    cases export_world_plugins <;>
      simp [body_link, (apply_option_settings_frame _ _).1,
        (lights_fold_frame C _ _).1, world_plugins]
  · exact (iterate_bodies_frame C _ _ _).2.1
  · exact (iterate_bodies_frame C _ _ _).1
  · intro heq
    have h1 : true = ({ name := match mjcf_root.model with
          | some m => m | none => "model" } : SdfModel).static := by
      rw [← (iterate_bodies_frame C mjcf_root.worldbody.body _ none).2.1, ← heq]
    simp at h1

/-- C9: with the export-world-plugins flag set, the conversion attaches
exactly the four literal (library, symbol) plugin pairs — physics,
sensors, user-commands, scene-broadcaster — to the destination world, in
that order; with the flag unset it attaches none. -/
theorem world_plugins_flag (C : Collaborators) (mjcf_root : MjcfRoot)
    (world : SdfWorld) :
    (mjcf_worldbody_to_sdf C mjcf_root world true).plugins =
      world.plugins ++
      [⟨"ignition-gazebo-physics-system", "ignition::gazebo::systems::Physics"⟩,
       ⟨"ignition-gazebo-sensors-system", "ignition::gazebo::systems::Sensors"⟩,
       ⟨"ignition-gazebo-user-commands-system",
        "ignition::gazebo::systems::UserCommands"⟩,
       ⟨"ignition-gazebo-scene-broadcaster-system",
        "ignition::gazebo::systems::SceneBroadcaster"⟩] ∧
    (mjcf_worldbody_to_sdf C mjcf_root world false).plugins = world.plugins := by
  constructor <;>
    · unfold mjcf_worldbody_to_sdf
      simp [world_plugins, (apply_option_settings_frame _ _).2,
        (lights_fold_frame C _ _).2]

end GzMujoco
